import Mathlib

/-!
Shallow embedding of the Clicker tally component (`src/app/app.component.ts`).

The component is a single Angular class holding the topic list, the event
timeline, the palette cursor and a few UI flags.  We embed its mutable fields
as a record `AppState` and each mutating method as a pure state transformer.
Nondeterministic inputs of the real code (generated ids from
`Date.now().toString() + Math.random()`, wall-clock timestamps, the result of
the `confirm(...)` dialog, the text typed into the add-topic input) become
explicit parameters of the transformers.  The localStorage slot is modelled at
the data level: `saveToStorage` records the serialized pair of lists, with
JSON serialization abstracted away (it is injective on this data).
-/

namespace Clicker

/-- `interface Topic` from the source. -/
structure Topic where
  id : String
  name : String
  color : String
  count : Nat
deriving DecidableEq, Repr

/-- `interface TimelineEvent` from the source. -/
structure TimelineEvent where
  topicId : String
  topicName : String
  timestamp : Int
  isoDatestamp : String
deriving DecidableEq, Repr

/-- The object `{ topics, timeline }` written to the persistence slot
by `saveToStorage` and read back by `loadFromStorage`. -/
structure StoredData where
  topics : List Topic
  timeline : List TimelineEvent
deriving DecidableEq, Repr

/-- `DEFAULT_COLORS` from the source: the fixed 12-color palette. -/
def DEFAULT_COLORS : List String :=
  [ "#27AE60", -- Green for Pass
    "#E74C3C", -- Red for Fail
    "#3498DB", -- Blue
    "#F39C12", -- Orange
    "#9B59B6", -- Purple
    "#1ABC9C", -- Turquoise
    "#34495E", -- Dark Gray
    "#E67E22", -- Dark Orange
    "#16A085", -- Teal
    "#8E44AD", -- Violet
    "#2980B9", -- Dark Blue
    "#C0392B"  -- Dark Red
  ]

/-- `MAX_EVENTS` from the source. -/
def MAX_EVENTS : Nat := 2000

/-- The component's mutable fields (chart configuration objects are pure view
projections of `topics`/`timeline` and are not part of the state proper).
`storage` mirrors the `eventCounterData` localStorage slot at the data level;
`none` means nothing has been written. -/
structure AppState where
  topics : List Topic
  timeline : List TimelineEvent
  newTopicName : String
  capacityReachedAlert : Bool
  colorIndex : Nat
  showAddTopicModal : Bool
  storage : Option StoredData
deriving DecidableEq, Repr

/-- The field initializers of the class: empty lists, empty input, no alert,
palette cursor 0, modal closed; fresh storage slot. -/
def initialAppState : AppState :=
  { topics := []
    timeline := []
    newTopicName := ""
    capacityReachedAlert := false
    colorIndex := 0
    showAddTopicModal := false
    storage := none }

/-- `saveToStorage()`: `localStorage.setItem('eventCounterData',
JSON.stringify({topics, timeline}))`, modelled at the data level. -/
def saveToStorage (s : AppState) : AppState :=
  { s with storage := some ⟨s.topics, s.timeline⟩ }

/-- `addTopicWithColor(name, color)`: push a fresh zero-count topic with an
explicitly given color.  The generated id is a parameter. -/
def addTopicWithColor (id name color : String) (s : AppState) : AppState :=
  { s with topics := s.topics ++ [⟨id, name, color, 0⟩] }

/-- `initializeDefaultTopics()`: seed "Pass" with palette entry 0 (green) and
"Fail" with palette entry 1 (red).  The two generated ids are parameters. -/
def initializeDefaultTopics (id1 id2 : String) (s : AppState) : AppState :=
  addTopicWithColor id2 "Fail" (DEFAULT_COLORS.getD 1 "")
    (addTopicWithColor id1 "Pass" (DEFAULT_COLORS.getD 0 "") s)

/-- `addTopicWithoutStorage(name)`: push a fresh topic colored
`DEFAULT_COLORS[(colorIndex + 2) % DEFAULT_COLORS.length]` and advance the
palette cursor. -/
def addTopicWithoutStorage (newId name : String) (s : AppState) : AppState :=
  { s with
    topics := s.topics ++
      [⟨newId, name,
        DEFAULT_COLORS.getD ((s.colorIndex + 2) % DEFAULT_COLORS.length) "", 0⟩]
    colorIndex := s.colorIndex + 1 }

/-- `closeAddTopicModal()`. -/
def closeAddTopicModal (s : AppState) : AppState :=
  { s with showAddTopicModal := false, newTopicName := "" }

/-- `openAddTopicModal()` (the focus timeout is a UI effect with no
state-visible consequence). -/
def openAddTopicModal (s : AppState) : AppState :=
  { s with showAddTopicModal := true, newTopicName := "" }

/-- The characters JavaScript `String.prototype.trim` strips (the common
ones: ASCII whitespace and no-break space; the exotic Unicode space code
points never occur in this development). -/
def isJsWhitespace (c : Char) : Bool :=
  c = ' ' || c = '\t' || c = '\n' || c = '\r' ||
  c = Char.ofNat 11 || c = Char.ofNat 12 || c = Char.ofNat 160

/-- `newTopicName.trim()`: strip leading and trailing whitespace. -/
def jsTrim (s : String) : String :=
  String.mk (((s.data.dropWhile isJsWhitespace).reverse.dropWhile
    isJsWhitespace).reverse)

/-- `addTopic()`: guarded by the truthiness of `newTopicName.trim()` — a
whitespace-only name makes the whole method a no-op.  Otherwise add the
trimmed name, clear the input, persist, close the modal. -/
def addTopic (newId : String) (s : AppState) : AppState :=
  if jsTrim s.newTopicName ≠ "" then
    closeAddTopicModal (saveToStorage
      { addTopicWithoutStorage newId (jsTrim s.newTopicName) s with newTopicName := "" })
  else s

/-- `topic.count++` on the result of `this.topics.find(t => t.id === topicId)`:
the in-place mutation through the alias bumps the count of the first topic in
the array whose id matches. -/
def incrementFirst (topicId : String) : List Topic → List Topic
  | [] => []
  | t :: ts =>
    if t.id = topicId then { t with count := t.count + 1 } :: ts
    else t :: incrementFirst topicId ts

/-- `incrementTopic(topicId)`: refuse (raising the capacity alert) once the
timeline holds `MAX_EVENTS` entries; otherwise look the topic up by id and, if
found, bump its count, append the snapshot event and persist.  The wall-clock
pair `(now, iso)` is a parameter; the 5-second auto-dismiss timeout is a
delayed UI effect outside the synchronous step. -/
def incrementTopic (topicId : String) (now : Int) (iso : String) (s : AppState) :
    AppState :=
  if MAX_EVENTS ≤ s.timeline.length then
    { s with capacityReachedAlert := true }
  else
    match s.topics.find? (fun t => t.id == topicId) with
    | some topic =>
        saveToStorage
          { s with
            topics := incrementFirst topicId s.topics
            timeline := s.timeline ++ [⟨topicId, topic.name, now, iso⟩] }
    | none => s

/-- `clearData()`: behind the confirm dialog, zero every count, drop the whole
timeline, persist. -/
def clearData (confirm : Bool) (s : AppState) : AppState :=
  if confirm then
    saveToStorage
      { s with
        topics := s.topics.map (fun t => { t with count := 0 })
        timeline := [] }
  else s

/-- `resetTopics()`: behind the confirm dialog, drop everything, reset the
palette cursor, reseed the two defaults, persist. -/
def resetTopics (confirm : Bool) (id1 id2 : String) (s : AppState) : AppState :=
  if confirm then
    saveToStorage (initializeDefaultTopics id1 id2
      { s with topics := [], timeline := [], colorIndex := 0 })
  else s

/-- `dismissAlert()`. -/
def dismissAlert (s : AppState) : AppState :=
  { s with capacityReachedAlert := false }

/-- `generateTotalsCSV()`: header plus one `"name",count` row per topic,
accumulated by string concatenation. -/
def generateTotalsCSV (topics : List Topic) : String :=
  topics.foldl
    (fun csv t => csv ++ "\"" ++ t.name ++ "\"," ++ toString t.count ++ "\n")
    "Topic,Count\n"

/-- `generateEventsCSV()`: header plus one row per timeline event. -/
def generateEventsCSV (timeline : List TimelineEvent) : String :=
  timeline.foldl
    (fun csv e => csv ++ "\"" ++ e.topicName ++ "\"," ++ toString e.timestamp ++
      ",\"" ++ e.isoDatestamp ++ "\"\n")
    "Topic,Timestamp (Epoch),Timestamp (ISO)\n"

/-- One user-driven operation, carrying the nondeterministic inputs of the
corresponding method (generated ids, wall clock, confirm-dialog answer).
`typeName` models editing the bound `newTopicName` input field. -/
inductive Op where
  | typeName (s : String)
  | addTopic (newId : String)
  | increment (topicId : String) (now : Int) (iso : String)
  | clearData (confirm : Bool)
  | resetTopics (confirm : Bool) (id1 id2 : String)
  | dismissAlert
  | openAddTopicModal
  | closeAddTopicModal
deriving DecidableEq, Repr

/-- Interpret one operation. -/
def step (s : AppState) : Op → AppState
  | .typeName nm => { s with newTopicName := nm }
  | .addTopic newId => addTopic newId s
  | .increment topicId now iso => incrementTopic topicId now iso s
  | .clearData confirm => clearData confirm s
  | .resetTopics confirm id1 id2 => resetTopics confirm id1 id2 s
  | .dismissAlert => dismissAlert s
  | .openAddTopicModal => openAddTopicModal s
  | .closeAddTopicModal => closeAddTopicModal s

/-- Run a sequence of operations. -/
def run (s : AppState) (ops : List Op) : AppState :=
  ops.foldl step s

/-- The topic ids an operation generates (`Date.now().toString() +
Math.random()` in the source): one per successful add, two per confirmed
reset. -/
def genIds : Op → List String
  | .addTopic newId => [newId]
  | .resetTopics confirm id1 id2 => if confirm then [id1, id2] else []
  | _ => []

/-- `loadFromStorage()`: read the slot; absent slot leaves the (initially
empty) lists untouched, a `JSON.parse` exception is caught and logged, also
leaving them untouched.  `JSON.parse` itself is a host primitive, passed in as
an abstract parser; the `parsed.topics || []` defaulting is absorbed into the
parser's successful result. -/
def loadFromStorage (parseJSON : String → Except String StoredData)
    (slot : Option String) : List Topic × List TimelineEvent :=
  match slot with
  | none => ([], [])
  | some data =>
    match parseJSON data with
    | .ok parsed => (parsed.topics, parsed.timeline)
    | .error _ => ([], [])

/-- The source's `passTopics = topics.filter(t => t.name === 'Pass');
passTopics[0].color = ...` mutates, through the alias, the first topic in the
array bearing the given name; rendered immutably. -/
def setFirstColor (name color : String) : List Topic → List Topic
  | [] => []
  | t :: ts =>
    if t.name = name then { t with color := color } :: ts
    else t :: setFirstColor name color ts

/-- `ngOnInit()`: load, then either seed the two defaults (empty load) or
re-pin the first "Pass" topic to palette entry 0 and the first "Fail" topic to
palette entry 1. -/
def ngOnInit (parseJSON : String → Except String StoredData)
    (slot : Option String) (id1 id2 : String) : AppState :=
  match loadFromStorage parseJSON slot with
  | (ts, tl) =>
    if ts.length = 0 then
      initializeDefaultTopics id1 id2
        { initialAppState with topics := ts, timeline := tl }
    else
      { initialAppState with
        topics := setFirstColor "Fail" (DEFAULT_COLORS.getD 1 "")
          (setFirstColor "Pass" (DEFAULT_COLORS.getD 0 "") ts)
        timeline := tl }

/-- Startup state on a fresh browser profile: empty slot, so `ngOnInit` seeds
the two default topics (ids are the two generated ones). -/
def initState (id1 id2 : String) : AppState :=
  ngOnInit (fun e => Except.error e) none id1 id2

/-- Number of timeline events charged to a given topic id. -/
def countFor (timeline : List TimelineEvent) (id : String) : Nat :=
  (timeline.filter (fun e => e.topicId == id)).length

/-- The count/log synchronisation invariant of the spec: each topic's count
equals the number of timeline events bearing its id. -/
def countsMatch (s : AppState) : Prop :=
  ∀ t ∈ s.topics, t.count = countFor s.timeline t.id

instance (s : AppState) : Decidable (countsMatch s) :=
  inferInstanceAs (Decidable (∀ t ∈ s.topics, t.count = countFor s.timeline t.id))

/-- `hexColor.replace('#', '')`: JavaScript `String.replace` with a string
pattern removes only the first occurrence. -/
def replaceFirstChar (c : Char) : List Char → List Char
  | [] => []
  | a :: rest => if a = c then rest else a :: replaceFirstChar c rest

/-- Value of one hexadecimal digit character, as `parseInt(·, 16)` reads it
(both letter cases accepted). -/
def hexDigitVal (c : Char) : Option Nat :=
  if '0' ≤ c ∧ c ≤ '9' then some (c.toNat - '0'.toNat)
  else if 'a' ≤ c ∧ c ≤ 'f' then some (c.toNat - 'a'.toNat + 10)
  else if 'A' ≤ c ∧ c ≤ 'F' then some (c.toNat - 'A'.toNat + 10)
  else none

/-- Accumulating loop of `parseInt(·, 16)`: consume leading hex digits. -/
def parseIntHexAux : List Char → Nat → Nat
  | [], acc => acc
  | c :: rest, acc =>
    match hexDigitVal c with
    | some d => parseIntHexAux rest (acc * 16 + d)
    | none => acc

/-- `parseInt(str, 16)`: `none` models the `NaN` result on a string with no
leading hex digit. -/
def parseIntHex (l : List Char) : Option Nat :=
  match l with
  | [] => none
  | c :: rest =>
    match hexDigitVal c with
    | some d => some (parseIntHexAux rest d)
    | none => none

/-- `getContrastColor(hexColor)`: strip the first `#`, read the three channel
bytes with `parseInt(·,16)`, compare the weighted brightness with 155.  When
any channel fails to parse, the JavaScript brightness is `NaN` and
`NaN > 155` is false, so the light color is returned; the catch-all branch
reproduces that. -/
def getContrastColor (hexColor : String) : String :=
  let hex := replaceFirstChar '#' hexColor.data
  match parseIntHex (hex.take 2),
        parseIntHex ((hex.drop 2).take 2),
        parseIntHex ((hex.drop 4).take 2) with
  | some r, some g, some b =>
    if ((r * 299 + g * 587 + b * 114 : ℚ) / 1000) > 155 then "#000000"
    else "#FFFFFF"
  | _, _, _ => "#FFFFFF"

/-- One row of the totals document, in the spec's words: double-quoted name
(inserted verbatim), comma, unquoted count, newline-terminated. -/
def totalsCSVRow (t : Topic) : String :=
  "\"" ++ t.name ++ "\"," ++ toString t.count ++ "\n"

/-- The totals rows in topic-list order, in the spec's words (spec-side
definition, to be compared with `generateTotalsCSV`). -/
def totalsCSVBody : List Topic → String
  | [] => ""
  | t :: ts => totalsCSVRow t ++ totalsCSVBody ts

/-- Replace only a topic's color, keeping id, name and count. -/
def withColor (t : Topic) (c : String) : Topic :=
  { t with color := c }

/-- Placeholder for out-of-range `List.getD` reads in statements. -/
def defaultTopic : Topic := ⟨"", "", "", 0⟩

/-- A state whose timeline is at capacity (used to exercise the guard). -/
def fullState : AppState :=
  { initialAppState with timeline := List.replicate 2000 ⟨"x", "x", 0, ""⟩ }

/-- Eleven consecutive user adds: enough for the palette cursor to wrap. -/
def paletteWrapOps : List Op :=
  (List.range 11).flatMap (fun i => [Op.typeName "T", Op.addTopic (toString i)])

/-- Inductive invariant for the count/log synchronisation proof: every topic
id was generated (`used`), topic ids are distinct, every event points at a
live topic, and counts agree with the log. -/
def Inv (used : List String) (s : AppState) : Prop :=
  s.topics.map Topic.id ⊆ used ∧
  (s.topics.map Topic.id).Nodup ∧
  (∀ e ∈ s.timeline, e.topicId ∈ s.topics.map Topic.id) ∧
  countsMatch s

/-- A sample persisted payload with edited colors, duplicate "Pass" names and
one event, used to exercise the startup color repair. -/
def corruptedSample : StoredData :=
  ⟨[⟨"1", "X", "#123456", 0⟩, ⟨"2", "Pass", "#000001", 1⟩,
    ⟨"3", "Pass", "#000002", 2⟩, ⟨"4", "Fail", "#000003", 0⟩],
   [⟨"2", "Pass", 5, "t"⟩]⟩

end Clicker

namespace Clicker

/-- C3: a confirmed reset-topics operation, from any prior state, yields exactly
two topics named "Pass" and "Fail" colored with palette entries 0 and 1, both
with count 0, an empty event log, and the palette cycle index reset to 0. -/
theorem resetTopics_spec (s : AppState) (id1 id2 : String) :
    (resetTopics true id1 id2 s).topics =
      [⟨id1, "Pass", DEFAULT_COLORS.getD 0 "", 0⟩,
       ⟨id2, "Fail", DEFAULT_COLORS.getD 1 "", 0⟩] ∧
    (resetTopics true id1 id2 s).timeline = [] ∧
    (resetTopics true id1 id2 s).colorIndex = 0 :=
  ⟨rfl, rfl, rfl⟩

/-- C5: when the pending topic name trims to the empty string, the add-topic
operation is a complete no-op: the whole state (topic list, event log, palette
cycle index, persisted slot) is unchanged. -/
theorem addTopic_blank_noop (newId : String) (s : AppState)
    (h : jsTrim s.newTopicName = "") : addTopic newId s = s := by
  simp [addTopic, h]

/-- Witness for C5 at a concrete whitespace-only pending name. -/
theorem addTopic_blank_noop_witness :
    jsTrim ({ initialAppState with newTopicName := "   " } : AppState).newTopicName = "" ∧
    addTopic "u" { initialAppState with newTopicName := "   " } =
      { initialAppState with newTopicName := "   " } :=
  ⟨by decide, addTopic_blank_noop "u" _ (by decide)⟩

/-- C6: a confirmed clear-counts operation zeroes every topic count and clears
the whole event log, while preserving each topic's id, name and color, the
topic list's length and order, and the palette cycle index. -/
theorem clearData_spec (s : AppState) :
    (clearData true s).topics = s.topics.map (fun t => { t with count := 0 }) ∧
    (clearData true s).timeline = [] ∧
    (clearData true s).colorIndex = s.colorIndex ∧
    (clearData true s).topics.map Topic.id = s.topics.map Topic.id ∧
    (clearData true s).topics.map Topic.name = s.topics.map Topic.name ∧
    (clearData true s).topics.map Topic.color = s.topics.map Topic.color ∧
    (clearData true s).topics.length = s.topics.length ∧
    ∀ t ∈ (clearData true s).topics, t.count = 0 := by
  refine ⟨rfl, rfl, rfl, ?_, ?_, ?_, ?_, ?_⟩ <;>
    simp [clearData, saveToStorage, List.map_map, Function.comp]

lemma generateTotalsCSV_go (ts : List Topic) : ∀ init : String,
    ts.foldl (fun csv t => csv ++ "\"" ++ t.name ++ "\"," ++ toString t.count ++ "\n") init =
      init ++ totalsCSVBody ts := by
  induction ts with
  | nil => intro init; simp [totalsCSVBody]
  | cons t ts ih =>
    intro init
    rw [List.foldl_cons, ih, totalsCSVBody]
    simp [totalsCSVRow, String.append_assoc]

/-- C8: the totals CSV is the header line followed by one double-quoted-name,
comma, unquoted-count line per topic in topic-list order, each line
newline-terminated; in particular one topic named "Pass" with count 3 yields
exactly the expected document. -/
theorem generateTotalsCSV_spec :
    (∀ ts : List Topic, generateTotalsCSV ts = "Topic,Count\n" ++ totalsCSVBody ts) ∧
    generateTotalsCSV [⟨"id1", "Pass", "#27AE60", 3⟩] = "Topic,Count\n\"Pass\",3\n" :=
  ⟨fun ts => generateTotalsCSV_go ts "Topic,Count\n", by decide⟩

lemma step_timeline_le (s : AppState) (op : Op)
    (h : s.timeline.length ≤ MAX_EVENTS) :
    (step s op).timeline.length ≤ MAX_EVENTS := by
  cases op with
  | typeName nm => exact h
  | addTopic newId =>
    simp only [step, addTopic]
    split
    · simp only [closeAddTopicModal, saveToStorage, addTopicWithoutStorage]
      exact h
    · exact h
  | increment topicId now iso =>
    simp only [step, incrementTopic]
    split
    · exact h
    · next hlt =>
      split
      · simp only [saveToStorage, List.length_append, List.length_singleton]
        omega
      · exact h
  | clearData confirm =>
    simp only [step, clearData]
    split
    · simp [saveToStorage]
    · exact h
  | resetTopics confirm id1 id2 =>
    simp only [step, resetTopics]
    split
    · simp [saveToStorage, initializeDefaultTopics, addTopicWithColor]
    · exact h
  | dismissAlert => exact h
  | openAddTopicModal => exact h
  | closeAddTopicModal => exact h

lemma run_timeline_le (ops : List Op) : ∀ s : AppState,
    s.timeline.length ≤ MAX_EVENTS → (run s ops).timeline.length ≤ MAX_EVENTS := by
  induction ops with
  | nil => intro s h; exact h
  | cons op rest ih =>
    intro s h
    exact ih (step s op) (step_timeline_le s op h)

/-- C2: with the event log at (or beyond) 2000 entries, increment leaves every
field except the capacity alert unchanged — counts, log and persisted slot
included — and raises the alert; consequently the log never exceeds 2000
entries in any state reachable from the seeded default state. -/
theorem capacity_guard :
    (∀ (s : AppState) (topicId : String) (now : Int) (iso : String),
        MAX_EVENTS ≤ s.timeline.length →
        incrementTopic topicId now iso s = { s with capacityReachedAlert := true }) ∧
    ∀ (id1 id2 : String) (ops : List Op),
      (run (initState id1 id2) ops).timeline.length ≤ MAX_EVENTS := by
  constructor
  · intro s topicId now iso h
    simp [incrementTopic, h]
  · intro id1 id2 ops
    refine run_timeline_le ops _ ?_
    rw [show (initState id1 id2).timeline = [] from rfl]
    exact Nat.zero_le _

/-- Witness for C2 at a concrete state whose log holds exactly 2000 events. -/
theorem capacity_guard_witness :
    MAX_EVENTS ≤ fullState.timeline.length ∧
    incrementTopic "t" 0 "" fullState = { fullState with capacityReachedAlert := true } := by
  have hlen : MAX_EVENTS ≤ fullState.timeline.length := by
    rw [show fullState.timeline = List.replicate 2000 ⟨"x", "x", 0, ""⟩ from rfl,
      List.length_replicate]
    exact Nat.le_refl _
  exact ⟨hlen, capacity_guard.1 fullState "t" 0 "" hlen⟩


/-- Counterexample to C4 as stated: after ten successful user adds the palette
cursor reaches 10, and the eleventh user-added topic is assigned
`DEFAULT_COLORS[(10 + 2) % 12]`, which is palette entry 0 — the reserved
default "Pass" color (shown by the second conjunct). -/
theorem palette_wraps_to_reserved :
    (run (initState "p" "f") paletteWrapOps).topics.getLast? =
      some ⟨"10", "T", DEFAULT_COLORS.getD 0 "", 0⟩ ∧
    (initState "p" "f").topics.map Topic.color =
      [DEFAULT_COLORS.getD 0 "", DEFAULT_COLORS.getD 1 ""] := by
  constructor
  · decide
  · decide

lemma reserved_avoidance_table :
    ∀ k : Nat, k < 12 → k ≠ 10 → k ≠ 11 →
      DEFAULT_COLORS.getD ((k + 2) % 12) "" ≠ DEFAULT_COLORS.getD 0 "" ∧
      DEFAULT_COLORS.getD ((k + 2) % 12) "" ≠ DEFAULT_COLORS.getD 1 "" := by
  decide

/-- C4 (amended): a newly added user topic gets color
`palette[(colorIndex + 2) mod 12]`, and this avoids the two reserved default
colors provided `colorIndex mod 12` is neither 10 nor 11 (in particular for
the first ten user adds); once the cycle wraps, the reserved colors recur. -/
theorem addTopic_color_avoids_reserved (s : AppState) (newId name : String)
    (h10 : s.colorIndex % 12 ≠ 10) (h11 : s.colorIndex % 12 ≠ 11) :
    ((addTopicWithoutStorage newId name s).topics.getLast?).map Topic.color =
      some (DEFAULT_COLORS.getD ((s.colorIndex + 2) % DEFAULT_COLORS.length) "") ∧
    DEFAULT_COLORS.getD ((s.colorIndex + 2) % DEFAULT_COLORS.length) "" ≠
      DEFAULT_COLORS.getD 0 "" ∧
    DEFAULT_COLORS.getD ((s.colorIndex + 2) % DEFAULT_COLORS.length) "" ≠
      DEFAULT_COLORS.getD 1 "" := by
  have hlen : DEFAULT_COLORS.length = 12 := rfl
  have hmod : (s.colorIndex + 2) % 12 = (s.colorIndex % 12 + 2) % 12 := by
    conv_lhs => rw [Nat.add_mod]
  have hk := reserved_avoidance_table (s.colorIndex % 12)
    (Nat.mod_lt _ (by omega)) h10 h11
  refine ⟨?_, ?_, ?_⟩
  · simp [addTopicWithoutStorage]
  · rw [hlen, hmod]; exact hk.1
  · rw [hlen, hmod]; exact hk.2

/-- Witness for the amended C4 at the freshly seeded state. -/
theorem addTopic_color_avoids_reserved_witness :
    (initState "a" "b").colorIndex % 12 ≠ 10 ∧
    (initState "a" "b").colorIndex % 12 ≠ 11 ∧
    (((addTopicWithoutStorage "u" "T" (initState "a" "b")).topics.getLast?).map Topic.color =
        some (DEFAULT_COLORS.getD (((initState "a" "b").colorIndex + 2) % DEFAULT_COLORS.length) "") ∧
      DEFAULT_COLORS.getD (((initState "a" "b").colorIndex + 2) % DEFAULT_COLORS.length) "" ≠
        DEFAULT_COLORS.getD 0 "" ∧
      DEFAULT_COLORS.getD (((initState "a" "b").colorIndex + 2) % DEFAULT_COLORS.length) "" ≠
        DEFAULT_COLORS.getD 1 "") :=
  ⟨by decide, by decide,
    addTopic_color_avoids_reserved (initState "a" "b") "u" "T" (by decide) (by decide)⟩

lemma getContrastColor_hex (c1 c2 c3 c4 c5 c6 : Char) (d1 d2 d3 d4 d5 d6 : Nat)
    (h1 : hexDigitVal c1 = some d1) (h2 : hexDigitVal c2 = some d2)
    (h3 : hexDigitVal c3 = some d3) (h4 : hexDigitVal c4 = some d4)
    (h5 : hexDigitVal c5 = some d5) (h6 : hexDigitVal c6 = some d6) :
    getContrastColor (String.mk ['#', c1, c2, c3, c4, c5, c6]) =
      if (155 : ℚ) <
          (((d1 * 16 + d2 : ℕ) : ℚ) * 299 + ((d3 * 16 + d4 : ℕ) : ℚ) * 587 +
            ((d5 * 16 + d6 : ℕ) : ℚ) * 114) / 1000
      then "#000000" else "#FFFFFF" := by
  simp only [getContrastColor, replaceFirstChar, List.take, List.drop, parseIntHex,
    parseIntHexAux, h1, h2, h3, h4, h5, h6, if_pos rfl]

/-- C7: on every 6-hex-digit color string the contrast utility returns
'#000000' exactly when the weighted brightness (R*299 + G*587 + B*114)/1000
exceeds 155 and '#FFFFFF' otherwise; in particular '#27AE60' maps to
'#FFFFFF' and '#F5F5F5' maps to '#000000'. -/
theorem getContrastColor_spec (c1 c2 c3 c4 c5 c6 : Char) (d1 d2 d3 d4 d5 d6 : Nat)
    (h1 : hexDigitVal c1 = some d1) (h2 : hexDigitVal c2 = some d2)
    (h3 : hexDigitVal c3 = some d3) (h4 : hexDigitVal c4 = some d4)
    (h5 : hexDigitVal c5 = some d5) (h6 : hexDigitVal c6 = some d6) :
    (getContrastColor (String.mk ['#', c1, c2, c3, c4, c5, c6]) =
      if (155 : ℚ) <
          (((d1 * 16 + d2 : ℕ) : ℚ) * 299 + ((d3 * 16 + d4 : ℕ) : ℚ) * 587 +
            ((d5 * 16 + d6 : ℕ) : ℚ) * 114) / 1000
      then "#000000" else "#FFFFFF") ∧
    getContrastColor "#27AE60" = "#FFFFFF" ∧
    getContrastColor "#F5F5F5" = "#000000" := by
  refine ⟨getContrastColor_hex c1 c2 c3 c4 c5 c6 d1 d2 d3 d4 d5 d6 h1 h2 h3 h4 h5 h6, ?_, ?_⟩
  · have h := getContrastColor_hex '2' '7' 'A' 'E' '6' '0' 2 7 10 14 6 0 rfl rfl rfl rfl rfl rfl
    rw [show String.mk ['#', '2', '7', 'A', 'E', '6', '0'] = "#27AE60" from rfl] at h
    rw [h, if_neg]
    push_cast
    norm_num
  · have h := getContrastColor_hex 'F' '5' 'F' '5' 'F' '5' 15 5 15 5 15 5 rfl rfl rfl rfl rfl rfl
    rw [show String.mk ['#', 'F', '5', 'F', '5', 'F', '5'] = "#F5F5F5" from rfl] at h
    rw [h, if_pos]
    push_cast
    norm_num

/-- Witness for C7 at the concrete input '#27AE60'. -/
theorem getContrastColor_spec_witness :
    hexDigitVal '2' = some 2 ∧ hexDigitVal '7' = some 7 ∧ hexDigitVal 'A' = some 10 ∧
    hexDigitVal 'E' = some 14 ∧ hexDigitVal '6' = some 6 ∧ hexDigitVal '0' = some 0 ∧
    ((getContrastColor (String.mk ['#', '2', '7', 'A', 'E', '6', '0']) =
      if (155 : ℚ) <
          (((2 * 16 + 7 : ℕ) : ℚ) * 299 + ((10 * 16 + 14 : ℕ) : ℚ) * 587 +
            ((6 * 16 + 0 : ℕ) : ℚ) * 114) / 1000
      then "#000000" else "#FFFFFF") ∧
    getContrastColor "#27AE60" = "#FFFFFF" ∧
    getContrastColor "#F5F5F5" = "#000000") :=
  ⟨rfl, rfl, rfl, rfl, rfl, rfl,
    getContrastColor_spec '2' '7' 'A' 'E' '6' '0' 2 7 10 14 6 0 rfl rfl rfl rfl rfl rfl⟩


/-- C9: when the persisted slot is absent or its content fails to parse,
loading yields the empty lists (the exception is caught, never propagated) and
startup then seeds the two default topics, completing with a functional
state. -/
theorem load_failure_safe (parseJSON : String → Except String StoredData)
    (slot : Option String) (id1 id2 : String)
    (hfail : ∀ str, slot = some str → ∃ msg, parseJSON str = Except.error msg) :
    loadFromStorage parseJSON slot = ([], []) ∧
    (ngOnInit parseJSON slot id1 id2).topics =
      [⟨id1, "Pass", DEFAULT_COLORS.getD 0 "", 0⟩,
       ⟨id2, "Fail", DEFAULT_COLORS.getD 1 "", 0⟩] ∧
    (ngOnInit parseJSON slot id1 id2).timeline = [] := by
  have hload : loadFromStorage parseJSON slot = ([], []) := by
    cases slot with
    | none => rfl
    | some str =>
      obtain ⟨msg, hmsg⟩ := hfail str rfl
      simp [loadFromStorage, hmsg]
  refine ⟨hload, ?_, ?_⟩ <;>
    simp [ngOnInit, hload, initializeDefaultTopics, addTopicWithColor, initialAppState]

/-- Witness for C9 with a concrete failing parser and garbage slot content. -/
theorem load_failure_safe_witness :
    (∀ str : String, (some "not json" : Option String) = some str →
      ∃ msg, (Except.error str : Except String StoredData) = Except.error msg) ∧
    (loadFromStorage (fun e => Except.error e) (some "not json") = ([], []) ∧
    (ngOnInit (fun e => Except.error e) (some "not json") "a" "b").topics =
      [⟨"a", "Pass", DEFAULT_COLORS.getD 0 "", 0⟩,
       ⟨"b", "Fail", DEFAULT_COLORS.getD 1 "", 0⟩] ∧
    (ngOnInit (fun e => Except.error e) (some "not json") "a" "b").timeline = []) :=
  ⟨fun str _ => ⟨str, rfl⟩,
    load_failure_safe (fun e => Except.error e) (some "not json") "a" "b"
      (fun str _ => ⟨str, rfl⟩)⟩

lemma setFirstColor_getD (nm c : String) :
    ∀ (ts : List Topic) (i : Nat), i < ts.length →
      (setFirstColor nm c ts).getD i defaultTopic =
        (if (ts.getD i defaultTopic).name = nm ∧
            (∀ j, j < i → (ts.getD j defaultTopic).name ≠ nm)
         then withColor (ts.getD i defaultTopic) c
         else ts.getD i defaultTopic) := by
  intro ts
  induction ts with
  | nil => intro i hi; simp at hi
  | cons t rest ih =>
    intro i hi
    by_cases hname : t.name = nm
    · simp only [setFirstColor, if_pos hname]
      cases i with
      | zero =>
        simp [hname, withColor]
      | succ k =>
        have hcond : ¬((( (t :: rest).getD (k+1) defaultTopic)).name = nm ∧
            ∀ j, j < k + 1 → (((t :: rest).getD j defaultTopic)).name ≠ nm) := by
          rintro ⟨-, hall⟩
          exact hall 0 (Nat.succ_pos k) hname
        rw [if_neg hcond]
        simp
    · simp only [setFirstColor, if_neg hname]
      cases i with
      | zero =>
        have hcond : ¬((((t :: rest).getD 0 defaultTopic)).name = nm ∧
            ∀ j, j < 0 → (((t :: rest).getD j defaultTopic)).name ≠ nm) := by
          rintro ⟨h0, -⟩
          exact hname h0
        rw [if_neg hcond]
        simp
      | succ k =>
        have hk : k < rest.length := by simpa using hi
        have := ih k hk
        simp only [List.getD_cons_succ]
        rw [this]
        have hsh : (∀ j, j < k → (rest.getD j defaultTopic).name ≠ nm) ↔
            (∀ j, j < k + 1 → ((t :: rest).getD j defaultTopic).name ≠ nm) := by
          constructor
          · intro hall j hj
            cases j with
            | zero => simpa using hname
            | succ m => simpa using hall m (by omega)
          · intro hall j hj
            simpa using hall (j + 1) (by omega)
        by_cases hc : (rest.getD k defaultTopic).name = nm ∧
            ∀ j, j < k → (rest.getD j defaultTopic).name ≠ nm
        · rw [if_pos hc, if_pos ⟨hc.1, hsh.mp hc.2⟩]
        · rw [if_neg hc, if_neg ?_]
          rintro ⟨h1, h2⟩
          exact hc ⟨h1, hsh.mpr h2⟩

lemma setFirstColor_length (nm c : String) :
    ∀ ts : List Topic, (setFirstColor nm c ts).length = ts.length := by
  intro ts
  induction ts with
  | nil => rfl
  | cons t rest ih =>
    by_cases hname : t.name = nm
    · simp [setFirstColor, hname]
    · simp [setFirstColor, hname, ih]

lemma setFirstColor_name_getD (nm c : String) (ts : List Topic) (i : Nat) :
    ((setFirstColor nm c ts).getD i defaultTopic).name = (ts.getD i defaultTopic).name := by
  by_cases hi : i < ts.length
  · rw [setFirstColor_getD nm c ts i hi]
    split
    · rfl
    · rfl
  · rw [List.getD_eq_default, List.getD_eq_default]
    · omega
    · rw [setFirstColor_length]; omega


/-- C10: on a non-empty loaded topic list, startup keeps the event log intact
and rewrites only the color of the first topic named "Pass" (to palette entry
0) and of the first topic named "Fail" (to palette entry 1); every other topic
— including later topics with those same names — is unchanged. -/
theorem startup_repins_default_colors (parseJSON : String → Except String StoredData)
    (slot : Option String) (str : String) (d : StoredData) (id1 id2 : String)
    (hs : slot = some str) (hp : parseJSON str = Except.ok d) (hne : d.topics ≠ []) :
    (ngOnInit parseJSON slot id1 id2).timeline = d.timeline ∧
    (ngOnInit parseJSON slot id1 id2).topics.length = d.topics.length ∧
    ∀ i, i < d.topics.length →
      (ngOnInit parseJSON slot id1 id2).topics.getD i defaultTopic =
        (if (d.topics.getD i defaultTopic).name = "Pass" ∧
            (∀ j, j < i → (d.topics.getD j defaultTopic).name ≠ "Pass")
         then withColor (d.topics.getD i defaultTopic) (DEFAULT_COLORS.getD 0 "")
         else if (d.topics.getD i defaultTopic).name = "Fail" ∧
            (∀ j, j < i → (d.topics.getD j defaultTopic).name ≠ "Fail")
         then withColor (d.topics.getD i defaultTopic) (DEFAULT_COLORS.getD 1 "")
         else d.topics.getD i defaultTopic) := by
  have hload : loadFromStorage parseJSON slot = (d.topics, d.timeline) := by
    subst hs
    simp [loadFromStorage, hp]
  have hlen0 : ¬d.topics.length = 0 := by
    simpa [List.length_eq_zero] using hne
  have htop : (ngOnInit parseJSON slot id1 id2).topics =
      setFirstColor "Fail" (DEFAULT_COLORS.getD 1 "")
        (setFirstColor "Pass" (DEFAULT_COLORS.getD 0 "") d.topics) := by
    simp [ngOnInit, hload, hlen0]
  have htl : (ngOnInit parseJSON slot id1 id2).timeline = d.timeline := by
    simp [ngOnInit, hload, hlen0]
  refine ⟨htl, ?_, ?_⟩
  · rw [htop, setFirstColor_length, setFirstColor_length]
  · intro i hi
    rw [htop]
    have hmidlen : i < (setFirstColor "Pass" (DEFAULT_COLORS.getD 0 "") d.topics).length := by
      rw [setFirstColor_length]; exact hi
    rw [setFirstColor_getD "Fail" (DEFAULT_COLORS.getD 1 "") _ i hmidlen]
    have hnames : ∀ k, ((setFirstColor "Pass" (DEFAULT_COLORS.getD 0 "") d.topics).getD k
        defaultTopic).name = (d.topics.getD k defaultTopic).name :=
      fun k => setFirstColor_name_getD _ _ _ k
    have hmid := setFirstColor_getD "Pass" (DEFAULT_COLORS.getD 0 "") d.topics i hi
    by_cases hP : (d.topics.getD i defaultTopic).name = "Pass" ∧
        (∀ j, j < i → (d.topics.getD j defaultTopic).name ≠ "Pass")
    · have hmideq : (setFirstColor "Pass" (DEFAULT_COLORS.getD 0 "") d.topics).getD i
          defaultTopic = withColor (d.topics.getD i defaultTopic) (DEFAULT_COLORS.getD 0 "") := by
        rw [hmid, if_pos hP]
      have hnoF : ¬(((setFirstColor "Pass" (DEFAULT_COLORS.getD 0 "") d.topics).getD i
          defaultTopic).name = "Fail" ∧
          ∀ j, j < i → ((setFirstColor "Pass" (DEFAULT_COLORS.getD 0 "") d.topics).getD j
            defaultTopic).name ≠ "Fail") := by
        rintro ⟨hf, -⟩
        rw [hnames i, hP.1] at hf
        exact absurd hf (by decide)
      rw [if_neg hnoF, hmideq, if_pos hP]
    · have hmideq : (setFirstColor "Pass" (DEFAULT_COLORS.getD 0 "") d.topics).getD i
          defaultTopic = d.topics.getD i defaultTopic := by
        rw [hmid, if_neg hP]
      by_cases hF : (d.topics.getD i defaultTopic).name = "Fail" ∧
          (∀ j, j < i → (d.topics.getD j defaultTopic).name ≠ "Fail")
      · have hyesF : ((setFirstColor "Pass" (DEFAULT_COLORS.getD 0 "") d.topics).getD i
            defaultTopic).name = "Fail" ∧
            ∀ j, j < i → ((setFirstColor "Pass" (DEFAULT_COLORS.getD 0 "") d.topics).getD j
              defaultTopic).name ≠ "Fail" := by
          constructor
          · rw [hnames i]; exact hF.1
          · intro j hj
            rw [hnames j]
            exact hF.2 j hj
        rw [if_pos hyesF, hmideq, if_neg hP, if_pos hF]
      · have hnoF : ¬(((setFirstColor "Pass" (DEFAULT_COLORS.getD 0 "") d.topics).getD i
            defaultTopic).name = "Fail" ∧
            ∀ j, j < i → ((setFirstColor "Pass" (DEFAULT_COLORS.getD 0 "") d.topics).getD j
              defaultTopic).name ≠ "Fail") := by
          rintro ⟨hf, hall⟩
          refine hF ⟨by rw [← hnames i]; exact hf, ?_⟩
          intro j hj
          rw [← hnames j]
          exact hall j hj
        rw [if_neg hnoF, hmideq, if_neg hP, if_neg hF]


lemma incrementFirst_map_id (tid : String) :
    ∀ ts : List Topic, (incrementFirst tid ts).map Topic.id = ts.map Topic.id := by
  intro ts
  induction ts with
  | nil => rfl
  | cons t rest ih =>
    by_cases h : t.id = tid
    · simp [incrementFirst, h]
    · simp [incrementFirst, h, ih]

lemma countFor_append (tl : List TimelineEvent) (e : TimelineEvent) (x : String) :
    countFor (tl ++ [e]) x = countFor tl x + (if e.topicId = x then 1 else 0) := by
  by_cases h : e.topicId = x
  · simp [countFor, List.filter_append, h]
  · simp [countFor, List.filter_append, h]

lemma countFor_nil (x : String) : countFor [] x = 0 := rfl

lemma incrementFirst_counts (tid : String) (e : TimelineEvent) (he : e.topicId = tid) :
    ∀ (ts : List Topic) (tl : List TimelineEvent),
      (ts.map Topic.id).Nodup →
      (∀ t ∈ ts, t.count = countFor tl t.id) →
      ∀ t ∈ incrementFirst tid ts, t.count = countFor (tl ++ [e]) t.id := by
  intro ts
  induction ts with
  | nil => intro tl _ _ t ht; simp [incrementFirst] at ht
  | cons a rest ih =>
    intro tl hnd hcnt t ht
    have hpair : (∀ x ∈ rest, ¬x.id = a.id) ∧ (List.map Topic.id rest).Nodup := by
      simpa using hnd
    by_cases ha : a.id = tid
    · rw [incrementFirst, if_pos ha] at ht
      rcases List.mem_cons.mp ht with rfl | hmem
      · have hac := hcnt a (List.mem_cons_self a rest)
        rw [countFor_append, if_pos (by rw [he, ha])]
        simp [hac]
      · have hne : t.id ≠ tid := by
          intro hEq
          exact hpair.1 t hmem (by rw [hEq, ha])
        rw [countFor_append, if_neg (by rw [he]; exact fun hh => hne hh.symm)]
        simpa using hcnt t (List.mem_cons_of_mem a hmem)
    · rw [incrementFirst, if_neg ha] at ht
      rcases List.mem_cons.mp ht with rfl | hmem
      · rw [countFor_append, if_neg (by rw [he]; exact fun hh => ha hh.symm)]
        simpa using hcnt t (List.mem_cons_self t rest)
      · exact ih tl hpair.2 (fun u hu => hcnt u (List.mem_cons_of_mem a hu)) t hmem

lemma Inv_mono (used ext : List String) (s : AppState) (h : Inv used s) :
    Inv (used ++ ext) s :=
  ⟨h.1.trans (List.subset_append_left _ _), h.2.1, h.2.2.1, h.2.2.2⟩


lemma step_Inv (used : List String) (s : AppState) (op : Op)
    (hI : Inv used s) (hfresh : ∀ g ∈ genIds op, g ∉ used)
    (hnd : (genIds op).Nodup) :
    Inv (used ++ genIds op) (step s op) := by
  obtain ⟨hsub, hnodup, hev, hcnt⟩ := hI
  cases op with
  | typeName nm => exact Inv_mono used _ s ⟨hsub, hnodup, hev, hcnt⟩
  | dismissAlert => exact Inv_mono used _ s ⟨hsub, hnodup, hev, hcnt⟩
  | openAddTopicModal => exact Inv_mono used _ s ⟨hsub, hnodup, hev, hcnt⟩
  | closeAddTopicModal => exact Inv_mono used _ s ⟨hsub, hnodup, hev, hcnt⟩
  | addTopic newId =>
    by_cases htrim : jsTrim s.newTopicName ≠ ""
    · have hstep : (step s (Op.addTopic newId)).topics =
          s.topics ++ [⟨newId, jsTrim s.newTopicName,
            DEFAULT_COLORS.getD ((s.colorIndex + 2) % DEFAULT_COLORS.length) "", 0⟩] := by
        simp [step, addTopic, htrim, closeAddTopicModal, saveToStorage, addTopicWithoutStorage]
      have hstepT : (step s (Op.addTopic newId)).timeline = s.timeline := by
        simp [step, addTopic, htrim, closeAddTopicModal, saveToStorage, addTopicWithoutStorage]
      have hfreshId : newId ∉ used := hfresh newId (by simp [genIds])
      have hnotid : newId ∉ s.topics.map Topic.id := fun hmem => hfreshId (hsub hmem)
      refine ⟨?_, ?_, ?_, ?_⟩
      · rw [hstep, List.map_append]
        refine List.append_subset.mpr ⟨hsub.trans (List.subset_append_left _ _), ?_⟩
        intro a ha
        simp only [List.map_cons, List.map_nil, List.mem_singleton] at ha
        subst ha
        exact List.mem_append_right _ (by simp [genIds])
      · rw [hstep, List.map_append]
        rw [List.nodup_append]
        refine ⟨hnodup, by simp, ?_⟩
        intro a hmem hsing
        simp only [List.map_cons, List.map_nil, List.mem_singleton] at hsing
        subst hsing
        exact hnotid hmem
      · intro e he
        rw [hstepT] at he
        rw [hstep, List.map_append]
        exact List.mem_append_left _ (hev e he)
      · intro t ht
        rw [hstepT]
        rw [hstep] at ht
        rcases List.mem_append.mp ht with hmem | hnew
        · exact hcnt t hmem
        · simp only [List.mem_singleton] at hnew
          subst hnew
          show 0 = countFor s.timeline newId
          have : ∀ e ∈ s.timeline, ¬(e.topicId == newId) = true := by
            intro e he hb
            have heq : e.topicId = newId := by simpa using hb
            exact hnotid (heq ▸ hev e he)
          simp [countFor, List.filter_eq_nil_iff.mpr this]
    · have hid : step s (Op.addTopic newId) = s := by
        simp [step, addTopic, htrim]
      rw [hid]
      exact Inv_mono used _ s ⟨hsub, hnodup, hev, hcnt⟩
  | increment topicId now iso =>
    have hgen : genIds (Op.increment topicId now iso) = [] := rfl
    rw [hgen, List.append_nil]
    by_cases hcap : MAX_EVENTS ≤ s.timeline.length
    · have hid : step s (Op.increment topicId now iso) =
          { s with capacityReachedAlert := true } := by
        simp [step, incrementTopic, hcap]
      rw [hid]
      exact ⟨hsub, hnodup, hev, hcnt⟩
    · cases hfind : s.topics.find? (fun t => t.id == topicId) with
      | none =>
        have hid : step s (Op.increment topicId now iso) = s := by
          simp [step, incrementTopic, hcap, hfind]
        rw [hid]
        exact ⟨hsub, hnodup, hev, hcnt⟩
      | some topic =>
        have htopicmem : topic ∈ s.topics := List.mem_of_find?_eq_some hfind
        have htid : topic.id = topicId := by
          have := List.find?_some hfind
          simpa using this
        have hstep : (step s (Op.increment topicId now iso)).topics =
            incrementFirst topicId s.topics := by
          simp [step, incrementTopic, hcap, hfind, saveToStorage]
        have hstepT : (step s (Op.increment topicId now iso)).timeline =
            s.timeline ++ [⟨topicId, topic.name, now, iso⟩] := by
          simp [step, incrementTopic, hcap, hfind, saveToStorage]
        refine ⟨?_, ?_, ?_, ?_⟩
        · rw [hstep, incrementFirst_map_id]
          exact hsub
        · rw [hstep, incrementFirst_map_id]
          exact hnodup
        · intro e he
          rw [hstepT] at he
          rw [hstep, incrementFirst_map_id]
          rcases List.mem_append.mp he with hold | hnew
          · exact hev e hold
          · simp only [List.mem_singleton] at hnew
            subst hnew
            exact List.mem_map.mpr ⟨topic, htopicmem, htid⟩
        · intro t ht
          rw [hstepT]
          rw [hstep] at ht
          exact incrementFirst_counts topicId ⟨topicId, topic.name, now, iso⟩ rfl
            s.topics s.timeline hnodup hcnt t ht
  | clearData confirm =>
    have hgen : genIds (Op.clearData confirm) = [] := rfl
    rw [hgen, List.append_nil]
    cases confirm with
    | false =>
      have hid : step s (Op.clearData false) = s := by
        simp [step, clearData]
      rw [hid]
      exact ⟨hsub, hnodup, hev, hcnt⟩
    | true =>
      have hstep : (step s (Op.clearData true)).topics =
          s.topics.map (fun t => { t with count := 0 }) := by
        simp [step, clearData, saveToStorage]
      have hstepT : (step s (Op.clearData true)).timeline = [] := by
        simp [step, clearData, saveToStorage]
      have hmapid : (s.topics.map (fun t => { t with count := 0 })).map Topic.id =
          s.topics.map Topic.id := by
        simp [List.map_map, Function.comp]
      refine ⟨?_, ?_, ?_, ?_⟩
      · rw [hstep, hmapid]; exact hsub
      · rw [hstep, hmapid]; exact hnodup
      · intro e he
        rw [hstepT] at he
        exact absurd he (List.not_mem_nil e)
      · intro t ht
        rw [hstepT]
        rw [hstep] at ht
        rcases List.mem_map.mp ht with ⟨u, -, rfl⟩
        rfl
  | resetTopics confirm id1 id2 =>
    cases confirm with
    | false =>
      have hid : step s (Op.resetTopics false id1 id2) = s := by
        simp [step, resetTopics]
      rw [hid]
      have hgen : genIds (Op.resetTopics false id1 id2) = [] := by
        simp [genIds]
      rw [hgen, List.append_nil]
      exact ⟨hsub, hnodup, hev, hcnt⟩
    | true =>
      have hgen : genIds (Op.resetTopics true id1 id2) = [id1, id2] := by
        simp [genIds]
      rw [hgen] at hnd ⊢
      have hstep : (step s (Op.resetTopics true id1 id2)).topics =
          [⟨id1, "Pass", DEFAULT_COLORS.getD 0 "", 0⟩,
           ⟨id2, "Fail", DEFAULT_COLORS.getD 1 "", 0⟩] := rfl
      have hstepT : (step s (Op.resetTopics true id1 id2)).timeline = [] := rfl
      refine ⟨?_, ?_, ?_, ?_⟩
      · rw [hstep]
        intro a ha
        simp only [List.map_cons, List.map_nil] at ha
        exact List.mem_append_right _ (by simpa using ha)
      · rw [hstep]
        simpa using hnd
      · intro e he
        rw [hstepT] at he
        exact absurd he (List.not_mem_nil e)
      · intro t ht
        rw [hstepT]
        rw [hstep] at ht
        rcases List.mem_cons.mp ht with rfl | ht2
        · rfl
        · rcases List.mem_cons.mp ht2 with rfl | ht3
          · rfl
          · exact absurd ht3 (List.not_mem_nil t)


lemma run_Inv : ∀ (ops : List Op) (used : List String) (s : AppState),
    Inv used s → (used ++ ops.flatMap genIds).Nodup →
    Inv (used ++ ops.flatMap genIds) (run s ops) := by
  intro ops
  induction ops with
  | nil =>
    intro used s hI _
    simpa [run] using hI
  | cons op rest ih =>
    intro used s hI hnd
    have hassoc : used ++ (op :: rest).flatMap genIds =
        (used ++ genIds op) ++ rest.flatMap genIds := by
      simp [List.append_assoc]
    rw [hassoc] at hnd ⊢
    have hpre : (used ++ genIds op).Nodup :=
      List.Nodup.sublist (List.sublist_append_left _ _) hnd
    obtain ⟨-, hndop, hdisj⟩ := List.nodup_append.mp hpre
    have hfresh : ∀ g ∈ genIds op, g ∉ used := fun g hg hgu => hdisj hgu hg
    have hstep := step_Inv used s op hI hfresh hndop
    show Inv _ (run (step s op) rest)
    exact ih (used ++ genIds op) (step s op) hstep hnd

/-- C1: starting from the seeded default state, for every sequence of
operations whose generated topic ids (the two seeds included) are pairwise
distinct, every topic's count equals the number of timeline events whose
topicId matches that topic's id. -/
theorem count_log_sync (id1 id2 : String) (ops : List Op)
    (h : (id1 :: id2 :: ops.flatMap genIds).Nodup) :
    countsMatch (run (initState id1 id2) ops) := by
  have htop : (initState id1 id2).topics =
      [⟨id1, "Pass", DEFAULT_COLORS.getD 0 "", 0⟩,
       ⟨id2, "Fail", DEFAULT_COLORS.getD 1 "", 0⟩] := rfl
  have hpre : ([id1, id2] : List String).Nodup :=
    List.Nodup.sublist (by simp) h
  have hinit : Inv [id1, id2] (initState id1 id2) := by
    refine ⟨?_, ?_, ?_, ?_⟩
    · rw [htop]
      simp
    · rw [htop]
      simpa using hpre
    · intro e he
      rw [show (initState id1 id2).timeline = [] from rfl] at he
      exact absurd he (List.not_mem_nil e)
    · intro t ht
      rw [show (initState id1 id2).timeline = [] from rfl]
      rw [htop] at ht
      rcases List.mem_cons.mp ht with rfl | ht2
      · rfl
      · rcases List.mem_cons.mp ht2 with rfl | ht3
        · rfl
        · exact absurd ht3 (List.not_mem_nil t)
  have hrun := run_Inv ops [id1, id2] (initState id1 id2) hinit h
  exact hrun.2.2.2

/-- Witness for C1 on a concrete one-increment run. -/
theorem count_log_sync_witness :
    (("a" : String) :: "b" :: ([Op.increment "a" 0 "t"].flatMap genIds)).Nodup ∧
    countsMatch (run (initState "a" "b") [Op.increment "a" 0 "t"]) :=
  ⟨by decide, count_log_sync "a" "b" [Op.increment "a" 0 "t"] (by decide)⟩

/-- Witness for C10 on a concrete corrupted payload with a duplicate "Pass". -/
theorem startup_repins_default_colors_witness :
    (some "blob" : Option String) = some "blob" ∧
    (fun _ : String => (Except.ok corruptedSample : Except String StoredData)) "blob" =
      Except.ok corruptedSample ∧
    corruptedSample.topics ≠ [] ∧
    ((ngOnInit (fun _ => Except.ok corruptedSample) (some "blob") "a" "b").timeline =
      corruptedSample.timeline ∧
    (ngOnInit (fun _ => Except.ok corruptedSample) (some "blob") "a" "b").topics.length =
      corruptedSample.topics.length ∧
    ∀ i, i < corruptedSample.topics.length →
      (ngOnInit (fun _ => Except.ok corruptedSample) (some "blob") "a" "b").topics.getD i
          defaultTopic =
        (if (corruptedSample.topics.getD i defaultTopic).name = "Pass" ∧
            (∀ j, j < i → (corruptedSample.topics.getD j defaultTopic).name ≠ "Pass")
         then withColor (corruptedSample.topics.getD i defaultTopic) (DEFAULT_COLORS.getD 0 "")
         else if (corruptedSample.topics.getD i defaultTopic).name = "Fail" ∧
            (∀ j, j < i → (corruptedSample.topics.getD j defaultTopic).name ≠ "Fail")
         then withColor (corruptedSample.topics.getD i defaultTopic) (DEFAULT_COLORS.getD 1 "")
         else corruptedSample.topics.getD i defaultTopic)) :=
  ⟨rfl, rfl, by decide,
    startup_repins_default_colors (fun _ => Except.ok corruptedSample) (some "blob") "blob"
      corruptedSample "a" "b" rfl rfl (by decide)⟩


end Clicker
